import Mathlib

/-!
# Shallow embedding of `release_bazel.py`

This file embeds the control flow of the AOSP Bazel release script
`release_bazel.py` and proves properties of its step-sequencing logic.

Modelling conventions:

* Strings are modelled as `List Char` (`Str` below); the fixed literals of
  the script (glob pattern, regular-expression pattern, directory prefix)
  are transcribed verbatim.
* The outside world observed by one run is a `World` record: whether the
  update-script marker file exists, the directory listing scanned by
  `current_bazel_commit`, the exit codes of the four external commands
  (`git clone`, `git merge-base --is-ancestor`, the update script, the
  verification build), and the eventual answers the operator gives to the
  two confirmation prompts.  The prompt loop of `prompt` re-asks until it
  gets a valid token, so only the final boolean answer is observable.
* Each function of the script is translated to a function returning a pair
  `List Event × StepResult _`: the ordered trace of observable actions
  (subprocess spawns, prompts, and the diagnostic prints the properties
  refer to), together with how the function ends.  `StepResult.exit1`
  models `sys.exit(1)`, `StepResult.usage` models an `argparse` failure
  (exit status 2), and `StepResult.crash` models an uncaught Python
  exception.  Plain informational prints (step headers, log locations) are
  not given trace events.
* Python `re` semantics matter for `current_bazel_commit`: the glob module
  matches `*` against any characters including newlines (its translation
  wraps the pattern in `(?s:...)`), while in the extraction pattern
  `^prebuilts/bazel/linux-x86_64/bazel_nojdk-(.*)-linux-x86_64$` the
  group `(.*)` cannot cross a newline and `$` also matches just before a
  trailing newline.  `regexCapture` reproduces exactly this.
-/

set_option autoImplicit false
set_option linter.unusedVariables false

namespace ReleaseBazel

/-- Strings of the script, modelled as lists of characters. -/
abbrev Str : Type := List Char

/-- `dropLit p s` strips the literal `p` from the front of `s`, returning
the remainder, or `none` when `s` does not start with `p`. -/
def dropLit : Str → Str → Option Str
  | [], s => some s
  | _ :: _, [] => none
  | c :: p, d :: s => if c = d then dropLit p s else none

/-- `dropLitEnd sfx s` strips the literal `sfx` from the end of `s`. -/
def dropLitEnd (sfx s : Str) : Option Str :=
  (dropLit sfx.reverse s.reverse).map List.reverse

/-- Python `$` in a non-MULTILINE pattern also matches just before a single
trailing newline; `stripNl` removes such a newline if present. -/
def stripNl (s : Str) : Str :=
  match s.reverse with
  | [] => s
  | c :: t => if c = '\n' then t.reverse else s

/-- Directory part of the glob pattern
`prebuilts/bazel/linux-x86_64/bazel_nojdk-*-linux-x86_64`
(`release_bazel.py` line 114). -/
def DIR_PFX : Str := "prebuilts/bazel/linux-x86_64/".data

/-- Basename part of the glob pattern before `*`. -/
def GLOB_PFX : Str := "bazel_nojdk-".data

/-- Basename part of the glob pattern after `*`. -/
def GLOB_SFX : Str := "-linux-x86_64".data

/-- Literal before the group in the extraction pattern
`^prebuilts/bazel/linux-x86_64/bazel_nojdk-(.*)-linux-x86_64$`
(`release_bazel.py` line 125). -/
def FULL_PFX : Str := "prebuilts/bazel/linux-x86_64/bazel_nojdk-".data

/-- Literal after the group in the extraction pattern. -/
def FULL_SFX : Str := "-linux-x86_64".data

/-- A directory entry matches the basename pattern
`bazel_nojdk-*-linux-x86_64`.  Python `fnmatch` translates `*` to
`(?s:.*)` anchored with `\Z`, so the middle may be any characters
(including newlines) and the whole name must be consumed. -/
def fnmatchBazel (e : Str) : Bool :=
  match dropLit GLOB_PFX e with
  | none => false
  | some r => (dropLitEnd GLOB_SFX r).isSome

/-- `glob.glob("prebuilts/bazel/linux-x86_64/bazel_nojdk-*-linux-x86_64")`
over a directory listing: the matching entries, as full relative paths,
in listing order. -/
def bazelGlob (listing : List Str) : List Str :=
  (listing.filter fnmatchBazel).map (fun e => DIR_PFX ++ e)

/-- `re.search("^prebuilts/bazel/linux-x86_64/bazel_nojdk-(.*)-linux-x86_64$", path)`,
returning the text of group 1 when the pattern matches.  The greedy group
is forced by the anchors and the fixed-length suffix, so the captured text
is exactly the part between the two literals; `(.*)` cannot contain a
newline, and `$` tolerates one trailing newline. -/
def regexCapture (path : Str) : Option Str :=
  let core := stripNl path
  match dropLit FULL_PFX core with
  | none => none
  | some r =>
    match dropLitEnd FULL_SFX r with
    | none => none
    | some mid => if '\n' ∈ mid then none else some mid

/-- Observable actions of one run: subprocess spawns, operator prompts,
and the diagnostic or preview prints the verified properties refer to. -/
inductive Event : Type where
  /-- The `glob.glob` scan in `current_bazel_commit` (line 113). -/
  | scanVersionDir
  /-- The "Requested commit matches current Bazel binary version" diagnostic
  (lines 136-143). -/
  | printNoReleaseNeeded
  /-- Spawning `git clone https://github.com/bazelbuild/bazel.git` (line 148). -/
  | spawnClone
  /-- Spawning `git merge-base --is-ancestor curr target` (line 157). -/
  | spawnAncestry
  /-- The clean-workspace confirmation prompt in `ensure_projects_clean`. -/
  | promptClean
  /-- The "is not a descendant" diagnostic (lines 162-165). -/
  | printNotAncestor
  /-- Printing the resolved update command line (line 197). -/
  | printUpdateCmd
  /-- Spawning the update script (line 202). -/
  | spawnUpdate
  /-- Printing the resolved verification command line (line 232). -/
  | printVerifyCmd
  /-- Spawning the verification build `mixed_droid.sh` (line 237). -/
  | spawnVerify
  /-- The CLs-created confirmation prompt in `create_commits`. -/
  | promptCommits
deriving DecidableEq, Repr

/-- How a piece of the script ends: normally with a value, via
`sys.exit(1)`, via an `argparse` usage error (exit status 2), or via an
uncaught Python exception (traceback). -/
inductive StepResult (α : Type) : Type where
  | ok (a : α)
  | exit1
  | usage
  | crash
deriving DecidableEq, Repr

/-- Sequencing: run `x`; on normal completion feed its value to `f`,
concatenating traces; any abnormal end propagates with the trace so far. -/
def andThen {α β : Type} (x : List Event × StepResult α)
    (f : α → List Event × StepResult β) : List Event × StepResult β :=
  match x with
  | (ev, StepResult.ok a) => (ev ++ (f a).1, (f a).2)
  | (ev, StepResult.exit1) => (ev, StepResult.exit1)
  | (ev, StepResult.usage) => (ev, StepResult.usage)
  | (ev, StepResult.crash) => (ev, StepResult.crash)

/-- The environment one run observes.  Exit codes are those of the four
external commands, as they would be if the corresponding command were run;
the two booleans at the end are the answers the operator eventually gives
to the confirmation prompts. -/
structure World : Type where
  /-- Does `prebuilts/bazel/common/update.sh` exist as a regular file? -/
  updateScriptIsFile : Bool
  /-- Entries of the directory `prebuilts/bazel/linux-x86_64`. -/
  listing : List Str
  /-- Exit code of `git clone`. -/
  cloneExit : Int
  /-- Exit code of `git merge-base --is-ancestor curr target`. -/
  ancestorExit : Int
  /-- The eventual answer to the clean-workspace prompt. -/
  cleanAnswer : Bool
  /-- Exit code of the update script. -/
  updateExit : Int
  /-- Exit code of the verification build. -/
  verifyExit : Int
  /-- The eventual answer to the CLs-created prompt. -/
  commitsAnswer : Bool

/-- The parsed command line (`argparse` result). -/
structure Args : Type where
  commit : Option Str
  force : Bool
  verifyOnly : Bool
  dryRun : Bool

/-- `verify_run_from_top` (lines 265-273): exit if the update script is not
a regular file relative to the current directory. -/
def verify_run_from_top (w : World) : List Event × StepResult Unit :=
  if w.updateScriptIsFile then ([], StepResult.ok ()) else ([], StepResult.exit1)

/-- `argparse` parsing (lines 279-305).  `--commit` is declared with
`required=True`, so parsing fails with a usage error (exit status 2)
whenever it is absent, regardless of the other flags.  The three
`BooleanOptionalAction` flags default to a falsy value. -/
def parse_args (commitArg : Option Str) (force verifyOnly dryRun : Bool) :
    List Event × StepResult Args :=
  match commitArg with
  | none => ([], StepResult.usage)
  | some c =>
    ([], StepResult.ok { commit := some c, force := force,
                         verifyOnly := verifyOnly, dryRun := dryRun })

/-- `target_update_commit` (lines 103-108): raises an exception when
`args.commit` is `None`.  Unreachable in practice because `argparse`
already requires `--commit`. -/
def target_update_commit (a : Args) : List Event × StepResult Str :=
  match a.commit with
  | none => ([], StepResult.crash)
  | some c => ([], StepResult.ok c)

/-- Result part of `current_bazel_commit` (lines 111-127): scan the
directory; exit on zero or on more than one match; otherwise extract the
version via `regexCapture`.  When the pattern fails to match (only possible
for a middle part containing a newline), `match_group` is `None` and
`.group(1)` raises `AttributeError`, an uncaught exception. -/
def resolveVersionResult (listing : List Str) : StepResult Str :=
  let files := bazelGlob listing
  if files.length < 1 then StepResult.exit1
  else if files.length > 1 then StepResult.exit1
  else
    match regexCapture (files.headD []) with
    | none => StepResult.crash
    | some v => StepResult.ok v

/-- `current_bazel_commit` with its trace: the directory scan happens
unconditionally at entry. -/
def current_bazel_commit (listing : List Str) : List Event × StepResult Str :=
  ([Event.scanVersionDir], resolveVersionResult listing)

/-- `ensure_commit_is_new` (lines 130-166): resolve the current version;
exit with the no-release-needed diagnostic when the target equals it;
otherwise clone (exit on failure), then query ancestry (exit with the
not-a-descendant diagnostic on failure). -/
def ensure_commit_is_new (w : World) (target_commit : Str) :
    List Event × StepResult Unit :=
  andThen (current_bazel_commit w.listing) (fun curr_commit =>
    if target_commit = curr_commit then
      ([Event.printNoReleaseNeeded], StepResult.exit1)
    else if w.cloneExit ≠ 0 then
      ([Event.spawnClone], StepResult.exit1)
    else if w.ancestorExit ≠ 0 then
      ([Event.spawnClone, Event.spawnAncestry, Event.printNotAncestor],
       StepResult.exit1)
    else
      ([Event.spawnClone, Event.spawnAncestry], StepResult.ok ()))

/-- `ensure_projects_clean` (lines 169-182): prompt; exit when the operator
answers no. -/
def ensure_projects_clean (w : World) : List Event × StepResult Unit :=
  ([Event.promptClean],
   if w.cleanAnswer then StepResult.ok () else StepResult.exit1)

/-- `run_update` (lines 185-210): print the resolved command line; when not
in dry-run mode spawn the update script and exit on a nonzero status.  The
`commit` argument is the positional argument handed to the script. -/
def run_update (w : World) (dryRunFlag : Bool) (commit : Str) :
    List Event × StepResult Unit :=
  if dryRunFlag then
    ([Event.printUpdateCmd], StepResult.ok ())
  else
    ([Event.printUpdateCmd, Event.spawnUpdate],
     if w.updateExit ≠ 0 then StepResult.exit1 else StepResult.ok ())

/-- `verify_update` (lines 213-248): print the resolved command line; when
not in dry-run mode spawn the verification build and exit on a nonzero
status. -/
def verify_update (w : World) (dryRunFlag : Bool) :
    List Event × StepResult Unit :=
  if dryRunFlag then
    ([Event.printVerifyCmd], StepResult.ok ())
  else
    ([Event.printVerifyCmd, Event.spawnVerify],
     if w.verifyExit ≠ 0 then StepResult.exit1 else StepResult.ok ())

/-- `create_commits` (lines 251-262): prompt; exit when the operator
answers no. -/
def create_commits (w : World) : List Event × StepResult Unit :=
  ([Event.promptCommits],
   if w.commitsAnswer then StepResult.ok () else StepResult.exit1)

/-- `main` (lines 276-320): workspace check, argument parsing, then the
step sequence.  Everything before verification is inside
`if not args.verify_only`, and `ensure_commit_is_new` is additionally
guarded by `if not args.force`. -/
def main (w : World) (commitArg : Option Str) (force verifyOnly dryRun : Bool) :
    List Event × StepResult Unit :=
  andThen (verify_run_from_top w) (fun _ =>
    andThen (parse_args commitArg force verifyOnly dryRun) (fun args =>
      andThen
        (if !args.verifyOnly then
          andThen (target_update_commit args) (fun commit =>
            andThen
              (if !args.force then ensure_commit_is_new w commit
               else ([], StepResult.ok ()))
              (fun _ =>
                andThen (ensure_projects_clean w) (fun _ =>
                  run_update w args.dryRun commit)))
         else ([], StepResult.ok ()))
        (fun _ =>
          andThen (verify_update w args.dryRun) (fun _ =>
            create_commits w))))

/-! ## Lemmas about the string-matching primitives -/

theorem dropLit_eq_some_iff {p s r : Str} : dropLit p s = some r ↔ s = p ++ r := by
  induction p generalizing s with
  | nil => simp [dropLit]
  | cons c p ih =>
    cases s with
    | nil => simp [dropLit]
    | cons d s =>
      by_cases h : c = d
      · subst h
        simp [dropLit, ih]
      · simp [dropLit, h, Ne.symm h]

theorem dropLitEnd_eq_some_iff {sfx s r : Str} :
    dropLitEnd sfx s = some r ↔ s = r ++ sfx := by
  unfold dropLitEnd
  rw [Option.map_eq_some']
  constructor
  · rintro ⟨t, ht, rfl⟩
    rw [dropLit_eq_some_iff] at ht
    have : s.reverse.reverse = (sfx.reverse ++ t).reverse := by rw [ht]
    simpa [List.reverse_append] using this
  · rintro rfl
    refine ⟨r.reverse, ?_, by simp⟩
    rw [dropLit_eq_some_iff, List.reverse_append]

theorem fnmatchBazel_iff {e : Str} :
    fnmatchBazel e = true ↔ ∃ mid, e = GLOB_PFX ++ (mid ++ GLOB_SFX) := by
  unfold fnmatchBazel
  cases hd : dropLit GLOB_PFX e with
  | none =>
    simp only [Bool.false_eq_true, false_iff, not_exists]
    intro mid he
    rw [he, dropLit_eq_some_iff.mpr rfl] at hd
    exact Option.noConfusion hd
  | some r =>
    rw [dropLit_eq_some_iff] at hd
    subst hd
    simp only [Option.isSome_iff_exists]
    constructor
    · rintro ⟨mid, hm⟩
      exact ⟨mid, by rw [dropLitEnd_eq_some_iff.mp hm]⟩
    · rintro ⟨mid, hm⟩
      exact ⟨mid, dropLitEnd_eq_some_iff.mpr (List.append_cancel_left hm)⟩

theorem bazelGlob_shape {l : List Str} {f : Str} (h : f ∈ bazelGlob l) :
    ∃ mid, f = FULL_PFX ++ (mid ++ FULL_SFX) := by
  unfold bazelGlob at h
  rw [List.mem_map] at h
  obtain ⟨e, he, rfl⟩ := h
  rw [List.mem_filter] at he
  obtain ⟨-, hm⟩ := he
  obtain ⟨mid, rfl⟩ := fnmatchBazel_iff.mp hm
  refine ⟨mid, ?_⟩
  have hpfx : FULL_PFX = DIR_PFX ++ GLOB_PFX := by decide
  have hsfx : FULL_SFX = GLOB_SFX := by decide
  rw [hpfx, hsfx, List.append_assoc]

theorem stripNl_append_sfx (u : Str) : stripNl (u ++ FULL_SFX) = u ++ FULL_SFX := by
  unfold stripNl
  have h4 : FULL_SFX.reverse = '4' :: "6_68x-xunil-".data := by decide
  rw [List.reverse_append, h4, List.cons_append]
  simp

theorem regexCapture_embed_eq (mid : Str) :
    regexCapture (FULL_PFX ++ (mid ++ FULL_SFX)) =
      if '\n' ∈ mid then none else some mid := by
  have h1 : stripNl (FULL_PFX ++ (mid ++ FULL_SFX)) = FULL_PFX ++ (mid ++ FULL_SFX) := by
    have h := stripNl_append_sfx (FULL_PFX ++ mid)
    rwa [List.append_assoc] at h
  have h2 : dropLit FULL_PFX (FULL_PFX ++ (mid ++ FULL_SFX)) = some (mid ++ FULL_SFX) :=
    dropLit_eq_some_iff.mpr rfl
  have h3 : dropLitEnd FULL_SFX (mid ++ FULL_SFX) = some mid :=
    dropLitEnd_eq_some_iff.mpr rfl
  unfold regexCapture
  simp only [h1, h2, h3]

/-- The length checks of `current_bazel_commit` in pattern-matching form. -/
theorem resolveVersionResult_eq_match (l : List Str) :
    resolveVersionResult l =
      match bazelGlob l with
      | [] => StepResult.exit1
      | [f] =>
        (match regexCapture f with
         | none => StepResult.crash
         | some v => StepResult.ok v)
      | _ :: _ :: _ => StepResult.exit1 := by
  unfold resolveVersionResult
  cases hg : bazelGlob l with
  | nil => simp
  | cons f fs =>
    cases fs with
    | nil => simp
    | cons f2 fs2 =>
      rw [if_neg (by simp only [List.length_cons]; omega),
        if_pos (by simp only [List.length_cons]; omega)]

/-! ## Lemmas about traces and step sequencing -/

theorem mem_andThen {α β : Type} {e : Event} {x : List Event × StepResult α}
    {f : α → List Event × StepResult β} :
    e ∈ (andThen x f).1 ↔
      e ∈ x.1 ∨ ∃ a, x.2 = StepResult.ok a ∧ e ∈ (f a).1 := by
  rcases x with ⟨ev, r⟩
  cases r <;> simp [andThen]

theorem fst_ite {α : Type} (c : Prop) [Decidable c]
    (x y : List Event × StepResult α) :
    (if c then x else y).1 = if c then x.1 else y.1 := by
  split <;> rfl

theorem snd_ite {α : Type} (c : Prop) [Decidable c]
    (x y : List Event × StepResult α) :
    (if c then x else y).2 = if c then x.2 else y.2 := by
  split <;> rfl

theorem mem_ite_list {c : Prop} [Decidable c] {e : Event} {l₁ l₂ : List Event} :
    (e ∈ if c then l₁ else l₂) ↔ (c ∧ e ∈ l₁) ∨ (¬c ∧ e ∈ l₂) := by
  split <;> simp [*]

theorem ite_eq_ok_iff {α : Type} {c : Prop} [Decidable c] {x y : StepResult α}
    {a : α} :
    ((if c then x else y) = StepResult.ok a) ↔
      (c ∧ x = StepResult.ok a) ∨ (¬c ∧ y = StepResult.ok a) := by
  split <;> simp [*]

/-! ## Concrete run environments used by the evaluations -/

/-- The well-formed binary name of the spec example, version `6.0.0`. -/
def entry660 : Str := "bazel_nojdk-6.0.0-linux-x86_64".data

/-- A well-formed binary name of version `5.0.0`. -/
def entry500 : Str := "bazel_nojdk-5.0.0-linux-x86_64".data

/-- A glob-matching binary name whose version part contains a newline. -/
def entryNl : Str := "bazel_nojdk-a\nb-linux-x86_64".data

/-- A fully healthy environment: marker file present, one checked-in binary
of version `6.0.0`, all four external commands would succeed, the operator
answers yes to both prompts. -/
def wOk : World :=
  { updateScriptIsFile := true, listing := [entry660], cloneExit := 0,
    ancestorExit := 0, cleanAnswer := true, updateExit := 0, verifyExit := 0,
    commitsAnswer := true }

/-- Like `wOk` but both version-control commands would fail, to show
statements that are independent of the clone and ancestry outcomes. -/
def wGitFails : World :=
  { wOk with cloneExit := 3, ancestorExit := 5 }

/-- Like `wOk` but the checked-in binary is `5.0.0` and the ancestry
predicate reports a nonzero (false) result. -/
def wNotAncestor : World :=
  { wOk with listing := [entry500], ancestorExit := 1 }

/-! ## C6: dry-run behaviour of the two external steps -/

/-- C6: for the two steps run through the external-step pattern, the update
step and the verification step, a dry run never spawns the real process and
returns successfully regardless of what the command would have exited with;
only the fully-resolved command line is printed. -/
theorem dry_run_steps_no_spawn (w : World) (c : Str) :
    run_update w true c = ([Event.printUpdateCmd], StepResult.ok ()) ∧
    verify_update w true = ([Event.printVerifyCmd], StepResult.ok ()) :=
  ⟨rfl, rfl⟩

/-! ## C7: outcome taxonomy of the version resolver -/

/-- C7, counterexample: a directory whose single matching entry embeds a
newline in the version part.  The glob finds exactly one file (`fnmatch`
translates `*` with `(?s:...)`, so it crosses the newline), but in the
extraction pattern `(.*)` cannot cross a newline, `re.search` returns
`None`, and `.group(1)` raises `AttributeError` — the function does not
return the embedded version substring. -/
theorem c7_single_match_returns_version_cex :
    (bazelGlob [entryNl]).length = 1 ∧
    resolveVersionResult [entryNl] = StepResult.crash ∧
    resolveVersionResult [entryNl] ≠ StepResult.ok "a\nb".data := by
  decide

/-- C7, amended: resolution is fatal for zero and for two or more matching
files; for exactly one matching file whose embedded version substring
contains no newline it returns exactly that substring (a single match with
a newline in the version part instead dies with an uncaught exception).
The example holds: a directory containing only
`bazel_nojdk-6.0.0-linux-x86_64` yields `6.0.0` (see the witness). -/
theorem resolve_current_version_cases (l : List Str) (v f1 f2 : Str)
    (rest : List Str) :
    (bazelGlob l = [] → resolveVersionResult l = StepResult.exit1) ∧
    (bazelGlob l = f1 :: f2 :: rest → resolveVersionResult l = StepResult.exit1) ∧
    (bazelGlob l = [FULL_PFX ++ (v ++ FULL_SFX)] → '\n' ∉ v →
      resolveVersionResult l = StepResult.ok v) := by
  refine ⟨fun h => ?_, fun h => ?_, fun h hnl => ?_⟩
  · rw [resolveVersionResult_eq_match, h]
  · rw [resolveVersionResult_eq_match, h]
  · rw [resolveVersionResult_eq_match, h]
    simp [regexCapture_embed_eq, hnl]

/-- C7, witness: the spec example evaluated concretely. -/
theorem resolve_current_version_cases_witness :
    bazelGlob [entry660] = [FULL_PFX ++ ("6.0.0".data ++ FULL_SFX)] ∧
    '\n' ∉ "6.0.0".data ∧
    resolveVersionResult [entry660] = StepResult.ok "6.0.0".data :=
  ⟨by decide, by decide,
    (resolve_current_version_cases [entry660] ("6.0.0".data) [] [] []).2.2
      (by decide) (by decide)⟩

/-! ## C8: the equality short-circuit of the ancestry check -/

/-- C8: when the target commit equals the resolved current version,
`ensure_commit_is_new` exits fatally right after the directory scan,
printing the no-release-needed diagnostic (the one suggesting
`--verify-only` or `-f`); no clone and no ancestry query happens, so the
failure is independent of the clone and ancestry outcomes (the `World`
components `cloneExit` and `ancestorExit` are arbitrary here). -/
theorem equal_commit_short_circuit (w : World) (t : Str)
    (hcurr : resolveVersionResult w.listing = StepResult.ok t) :
    ensure_commit_is_new w t =
      ([Event.scanVersionDir, Event.printNoReleaseNeeded], StepResult.exit1) := by
  simp [ensure_commit_is_new, current_bazel_commit, andThen, hcurr]

/-- C8, witness: version `6.0.0` onto itself, in an environment where both
version-control commands would fail (exit codes 3 and 5), showing the
failure precedes and ignores them. -/
theorem equal_commit_short_circuit_witness :
    resolveVersionResult wGitFails.listing = StepResult.ok "6.0.0".data ∧
    ensure_commit_is_new wGitFails "6.0.0".data =
      ([Event.scanVersionDir, Event.printNoReleaseNeeded], StepResult.exit1) :=
  ⟨by decide, equal_commit_short_circuit wGitFails "6.0.0".data (by decide)⟩

/-! ## C9: outcomes of the ancestry check for unequal versions -/

/-- C9: for a target different from the resolved current version, the step
returns normally exactly when the clone exits 0 and the ancestry predicate
`git merge-base --is-ancestor curr target` exits 0 (reports that the
current version is an ancestor of the target); and when the clone succeeds
but the predicate reports a nonzero result, the step exits fatally after
printing the not-a-descendant diagnostic (the one naming `-f`). -/
theorem ancestry_check_outcomes (w : World) (t curr : Str)
    (hcurr : resolveVersionResult w.listing = StepResult.ok curr)
    (hne : t ≠ curr) :
    ((ensure_commit_is_new w t).2 = StepResult.ok () ↔
      (w.cloneExit = 0 ∧ w.ancestorExit = 0)) ∧
    (w.cloneExit = 0 → w.ancestorExit ≠ 0 →
      ensure_commit_is_new w t =
        ([Event.scanVersionDir, Event.spawnClone, Event.spawnAncestry,
          Event.printNotAncestor], StepResult.exit1)) := by
  constructor
  · by_cases hcl : w.cloneExit = 0 <;> by_cases hanc : w.ancestorExit = 0 <;>
      simp [ensure_commit_is_new, current_bazel_commit, andThen, hcurr, hne,
        hcl, hanc]
  · intro hcl hanc
    simp [ensure_commit_is_new, current_bazel_commit, andThen, hcurr, hne,
      hcl, hanc]

/-- C9, witness: updating from `5.0.0` to `4.0.0` when the clone succeeds
and the ancestry predicate reports false is fatal with the
not-a-descendant diagnostic. -/
theorem ancestry_check_outcomes_witness :
    resolveVersionResult wNotAncestor.listing = StepResult.ok "5.0.0".data ∧
    "4.0.0".data ≠ "5.0.0".data ∧
    wNotAncestor.cloneExit = 0 ∧ wNotAncestor.ancestorExit ≠ 0 ∧
    ensure_commit_is_new wNotAncestor "4.0.0".data =
      ([Event.scanVersionDir, Event.spawnClone, Event.spawnAncestry,
        Event.printNotAncestor], StepResult.exit1) :=
  ⟨by decide, by decide, by decide, by decide,
    (ancestry_check_outcomes wNotAncestor "4.0.0".data "5.0.0".data
      (by decide) (by decide)).2 (by decide) (by decide)⟩

/-! ## C10: round trip of version extraction -/

/-- C10: whenever the version resolver succeeds with version `v`, the glob
found exactly one file and that file is exactly
`prebuilts/bazel/linux-x86_64/bazel_nojdk-` ++ `v` ++ `-linux-x86_64`:
re-embedding the returned version into the fixed pattern reconstructs the
matched filename, losing no characters. -/
theorem version_roundtrip (l : List Str) (v : Str)
    (h : resolveVersionResult l = StepResult.ok v) :
    bazelGlob l = [FULL_PFX ++ (v ++ FULL_SFX)] := by
  rw [resolveVersionResult_eq_match] at h
  rcases hg : bazelGlob l with - | ⟨f, - | ⟨f2, fs⟩⟩
  · rw [hg] at h
    simp at h
  · rw [hg] at h
    have hf : f ∈ bazelGlob l := by
      rw [hg]
      exact List.mem_singleton.mpr rfl
    obtain ⟨mid, rfl⟩ := bazelGlob_shape hf
    by_cases hmem : '\n' ∈ mid
    · simp [regexCapture_embed_eq, hmem] at h
    · simp [regexCapture_embed_eq, hmem] at h
      rw [h]
  · rw [hg] at h
    simp at h

/-- C10, witness: the round trip evaluated on the `6.0.0` example. -/
theorem version_roundtrip_witness :
    resolveVersionResult [entry660] = StepResult.ok "6.0.0".data ∧
    bazelGlob [entry660] = [FULL_PFX ++ ("6.0.0".data ++ FULL_SFX)] :=
  ⟨by decide, version_roundtrip [entry660] "6.0.0".data (by decide)⟩

/-! ## C1: what `--force` skips -/

/-- C1, counterexample: in the run `--commit 6.0.0 --force` over the
healthy environment, the current-version directory scan claimed to be
performed does not happen: `main` skips the whole of
`ensure_commit_is_new`, which is the only caller of
`current_bazel_commit`. -/
theorem c1_force_still_scans_cex :
    Event.scanVersionDir ∉ (main wOk (some "6.0.0".data) true false false).1 := by
  decide

/-- C1, amended: with `--force` (and without `--verify-only`) the
orchestrator skips `ensure_commit_is_new` as a whole, so neither the
version-resolver directory scan nor the clone nor the ancestry query is
ever performed. -/
theorem force_skips_resolver_and_ancestry (w : World) (c : Str) (d : Bool) :
    Event.scanVersionDir ∉ (main w (some c) true false d).1 ∧
    Event.spawnClone ∉ (main w (some c) true false d).1 ∧
    Event.spawnAncestry ∉ (main w (some c) true false d).1 := by
  refine ⟨fun h => ?_, fun h => ?_, fun h => ?_⟩ <;>
    simp [main, verify_run_from_top, parse_args, target_update_commit,
      ensure_projects_clean, run_update, verify_update, create_commits,
      mem_andThen, fst_ite, snd_ite, mem_ite_list, ite_eq_ok_iff, ite_self] at h

/-- C1, witness: the amended statement instantiated at the healthy
dry-run environment. -/
theorem force_skips_resolver_and_ancestry_witness :
    Event.scanVersionDir ∉ (main wOk (some "abc".data) true false true).1 :=
  (force_skips_resolver_and_ancestry wOk "abc".data true).1

/-! ## C2: the force flag and the equality short-circuit -/

/-- C2, counterexample: a forced run whose target commit `6.0.0` equals
the current version `6.0.0` is not aborted by the equality check: it runs
the update step and completes successfully, because `--force` skips all of
`ensure_commit_is_new`, the equality short-circuit included. -/
theorem c2_force_equal_commit_aborts_cex :
    (main wOk (some "6.0.0".data) true false false).2 = StepResult.ok () ∧
    Event.spawnUpdate ∈ (main wOk (some "6.0.0".data) true false false).1 := by
  decide

/-- C2, amended: `--force` bypasses the whole of `ensure_commit_is_new`,
the commit-equals-current short-circuit included: a forced run (without
`--verify-only`) whose target commit equals the resolved current version
is not stopped by the equality check — it reaches the clean-workspace
confirmation and never prints the no-release-needed diagnostic. -/
theorem force_bypasses_equality_check (w : World) (t : Str) (d : Bool)
    (hscript : w.updateScriptIsFile = true)
    (hcurr : resolveVersionResult w.listing = StepResult.ok t) :
    Event.promptClean ∈ (main w (some t) true false d).1 ∧
    Event.printNoReleaseNeeded ∉ (main w (some t) true false d).1 := by
  constructor
  · simp [main, verify_run_from_top, parse_args, target_update_commit,
      ensure_projects_clean, mem_andThen, fst_ite, snd_ite, mem_ite_list,
      ite_eq_ok_iff, hscript]
  · intro h
    simp [main, verify_run_from_top, parse_args, target_update_commit,
      ensure_projects_clean, run_update, verify_update, create_commits,
      mem_andThen, fst_ite, snd_ite, mem_ite_list, ite_eq_ok_iff, ite_self] at h

/-- C2, witness: the amended statement at the healthy environment with
target equal to the current version `6.0.0`. -/
theorem force_bypasses_equality_check_witness :
    wOk.updateScriptIsFile = true ∧
    resolveVersionResult wOk.listing = StepResult.ok "6.0.0".data ∧
    Event.promptClean ∈ (main wOk (some "6.0.0".data) true false false).1 :=
  ⟨by decide, by decide,
    (force_bypasses_equality_check wOk "6.0.0".data false (by decide)
      (by decide)).1⟩

/-! ## C3: when `--commit` is required -/

/-- C3, counterexample: an invocation with `--verify-only` and no
`--commit` does not parse — `--commit` is declared with `required=True`,
so `argparse` fails with a usage error (exit status 2) and the run never
reaches verification. -/
theorem c3_verify_only_without_commit_cex :
    main wOk none false true false = ([], StepResult.usage) ∧
    Event.spawnVerify ∉ (main wOk none false true false).1 := by
  decide

/-- C3, amended: `--commit` is required unconditionally: every invocation
without `--commit`, with or without `--verify-only`, fails at argument
parsing with a usage error (exit status 2) and performs no step of the
release flow. -/
theorem commit_always_required (w : World) (force verifyOnly dryRun : Bool)
    (hscript : w.updateScriptIsFile = true) :
    main w none force verifyOnly dryRun = ([], StepResult.usage) := by
  simp [main, andThen, verify_run_from_top, parse_args, hscript]

/-- C3, witness: the amended statement at the healthy environment with
`--verify-only` set. -/
theorem commit_always_required_witness :
    wOk.updateScriptIsFile = true ∧
    main wOk none false true false = ([], StepResult.usage) :=
  ⟨by decide, commit_always_required wOk false true false (by decide)⟩

/-! ## C4: what a dry run does and does not execute -/

/-- C4, counterexample: a dry run `--commit abc --dry-run` over the healthy
environment still spawns the `git clone` subprocess —
`ensure_commit_is_new` is not guarded by the dry-run flag, so not every
external side-effecting command is skipped in dry-run mode. -/
theorem c4_dry_run_no_subprocess_cex :
    Event.spawnClone ∈ (main wOk (some "abc".data) false false true).1 ∧
    Event.spawnAncestry ∈ (main wOk (some "abc".data) false false true).1 := by
  decide

/-- C4, amended: with `--dry-run` the update and verification subprocesses
are never spawned (those two steps only describe their commands), but
dry-run does not guard the ancestry checker: a dry run that reaches it
(no `--force`, no `--verify-only`, workspace marker present, a resolvable
current version different from the target) still spawns the `git clone`
subprocess, and the `git merge-base` subprocess too when the clone
succeeds. -/
theorem dry_run_spawn_behavior (w : World) (c : Option Str) (f v : Bool) :
    (Event.spawnUpdate ∉ (main w c f v true).1 ∧
     Event.spawnVerify ∉ (main w c f v true).1) ∧
    (∀ t curr, c = some t → f = false → v = false →
      w.updateScriptIsFile = true →
      resolveVersionResult w.listing = StepResult.ok curr → t ≠ curr →
      Event.spawnClone ∈ (main w c f v true).1 ∧
      (w.cloneExit = 0 → Event.spawnAncestry ∈ (main w c f v true).1)) := by
  constructor
  · refine ⟨fun h => ?_, fun h => ?_⟩ <;>
      cases c <;>
      simp [main, verify_run_from_top, parse_args, target_update_commit,
        ensure_commit_is_new, current_bazel_commit, ensure_projects_clean,
        run_update, verify_update, create_commits,
        mem_andThen, fst_ite, snd_ite, mem_ite_list, ite_eq_ok_iff,
        ite_self] at h
  · rintro t curr rfl rfl rfl hscript hcurr hne
    constructor
    · by_cases hcl : w.cloneExit = 0 <;> by_cases hanc : w.ancestorExit = 0 <;>
        simp [main, verify_run_from_top, parse_args, target_update_commit,
          ensure_commit_is_new, current_bazel_commit, mem_andThen, fst_ite,
          snd_ite, mem_ite_list, ite_eq_ok_iff, hscript, hcurr, hne, hcl, hanc]
    · intro hcl
      by_cases hanc : w.ancestorExit = 0 <;>
        simp [main, verify_run_from_top, parse_args, target_update_commit,
          ensure_commit_is_new, current_bazel_commit, mem_andThen, fst_ite,
          snd_ite, mem_ite_list, ite_eq_ok_iff, hscript, hcurr, hne, hcl, hanc]

/-- C4, witness: the amended statement at the healthy environment, dry run
targeting `abc` over current version `6.0.0`. -/
theorem dry_run_spawn_behavior_witness :
    Event.spawnUpdate ∉ (main wOk (some "abc".data) false false true).1 ∧
    Event.spawnClone ∈ (main wOk (some "abc".data) false false true).1 :=
  ⟨(dry_run_spawn_behavior wOk (some "abc".data) false false).1.1,
    ((dry_run_spawn_behavior wOk (some "abc".data) false false).2
      "abc".data "6.0.0".data rfl rfl rfl (by decide) (by decide)
      (by decide)).1⟩

/-! ## C5: what `--verify-only` runs -/

/-- C5: with `--verify-only` the orchestrator invokes none of the version
resolver, the ancestry checker, the clean-workspace confirmation or the
update step: once the workspace marker check passes, the run is exactly
the verification step followed by the CLs-created confirmation. -/
theorem verify_only_flow (w : World) (c : Str) (f d : Bool)
    (hscript : w.updateScriptIsFile = true) :
    main w (some c) f true d =
      andThen (verify_update w d) (fun _ => create_commits w) ∧
    Event.scanVersionDir ∉ (main w (some c) f true d).1 ∧
    Event.spawnClone ∉ (main w (some c) f true d).1 ∧
    Event.spawnAncestry ∉ (main w (some c) f true d).1 ∧
    Event.promptClean ∉ (main w (some c) f true d).1 ∧
    Event.spawnUpdate ∉ (main w (some c) f true d).1 := by
  have hmain : main w (some c) f true d =
      andThen (verify_update w d) (fun _ => create_commits w) := by
    simp [main, andThen, verify_run_from_top, parse_args, hscript]
  refine ⟨hmain, ?_, ?_, ?_, ?_, ?_⟩ <;>
    · rw [hmain]
      intro h
      simp [verify_update, create_commits, mem_andThen, fst_ite, snd_ite,
        mem_ite_list, ite_eq_ok_iff, ite_self] at h

/-- C5, witness: the flow equation at the healthy environment. -/
theorem verify_only_flow_witness :
    wOk.updateScriptIsFile = true ∧
    main wOk (some "abc".data) false true false =
      andThen (verify_update wOk false) (fun _ => create_commits wOk) :=
  ⟨by decide, (verify_only_flow wOk "abc".data false false (by decide)).1⟩

end ReleaseBazel
